import Mathlib

/-!
Verification of the ResonaCanvas spatial influence engine against its source.

The definitions below are a shallow embedding of the TypeScript source:
`src/App.tsx` (viewport transform, synthesis orchestrator, undo history),
`src/components/ImageCard.tsx` / `src/types.ts` (data model, influence
scorer) and `src/services/geminiService.ts` (credential checks around the
two external calls).  JavaScript numbers are modelled as exact rationals
(`ℚ`) where no square root occurs and as reals (`ℝ`) where the Euclidean
distance of the proximity weight requires `Real.sqrt`.  The two external
service calls are opaque: their outcomes are passed in as `Except` values,
and the model records which external requests were actually issued.
-/

namespace ResonaCanvas


/-- Viewport transform state from App.tsx: `const [transform, setTransform] =
useState({ x: 0, y: 0, scale: 0.8 })`.  `x`/`y` are the screen-space offset,
`scale` the zoom factor. -/
structure Transform where
  x : ℚ
  y : ℚ
  scale : ℚ
deriving DecidableEq, Repr

/-- Screen-to-canvas conversion used throughout App.tsx (`handleDrop`,
`handleContextMenu`): `canvas = (screen - offset) / scale`. -/
def canvasCoord (offset scale screen : ℚ) : ℚ :=
  (screen - offset) / scale

/-- The wheel-zoom handler `handleWheel` of App.tsx (lines 151-163), in the
case where the board bounding rect exists (otherwise the transform is left
unchanged); `mouseX`, `mouseY` are the rect-relative pointer coordinates.
`0.001`, `0.05` and `5` from the source are the exact rationals `1/1000`,
`1/20` and `5`. -/
def handleWheel (t : Transform) (deltaY mouseX mouseY : ℚ) : Transform :=
  let scaleFactor := 1 - deltaY * (1 / 1000)
  let newScale := min 5 (max (1 / 20) (t.scale * scaleFactor))
  { x := mouseX - (mouseX - t.x) * (newScale / t.scale)
  , y := mouseY - (mouseY - t.y) * (newScale / t.scale)
  , scale := newScale }

/-- One contributor entry of a provenance record, from `synthesisSources` in
App.tsx: `{ thumbnail: img.base64, contribution: Math.round(...) }`.  The
contribution percentage is an integer. -/
structure SynthSource where
  thumbnail : String
  contribution : ℤ
deriving DecidableEq, Repr

/-- The `synthesisData` provenance record of a generated Placeable, from
`src/types.ts`: `{ prompt: string, sources: {thumbnail, contribution}[] }`. -/
structure SynthesisData where
  prompt : String
  sources : List SynthSource
deriving DecidableEq, Repr

/-- A Placeable, from the `ReferenceImage` interface of `src/types.ts`.
Coordinates and sizes are logical canvas units.  The optional TS fields
`isGenerating?` and `score?` are modelled as a `Bool` (absent = `false`;
JS only ever tests truthiness) and an `Option`.  The `file?` field (the
original DOM `File` handle) plays no role in any claim and is omitted. -/
structure ReferenceImage where
  id : String
  base64 : String
  x : ℝ
  y : ℝ
  width : ℝ
  height : ℝ
  score : Option ℝ := none
  isGenerating : Bool := false
  synthesisData : Option SynthesisData := none

/-- `calculateBaseSizeScore` from `src/types.ts`:
`min(5, max(1, width*height / 40000))`. -/
noncomputable def calculateBaseSizeScore (width height : ℝ) : ℝ :=
  min 5 (max 1 (width * height / 40000))

/-- `calculateProximityWeight` from `src/types.ts`: the Euclidean distance
`dist` between the item's center `(imgX + imgW/2, imgY + imgH/2)` and the
target center; `0` when `dist > radius`, else the linear falloff
`1 - dist/radius`. -/
noncomputable def calculateProximityWeight
    (imgX imgY imgW imgH targetX targetY radius : ℝ) : ℝ :=
  let centerX := imgX + imgW / 2
  let centerY := imgY + imgH / 2
  let dist := Real.sqrt ((centerX - targetX) ^ 2 + (centerY - targetY) ^ 2)
  if radius < dist then 0 else 1 - dist / radius

/-- The scored copy of an image built in `synthesizeAtPos` (App.tsx lines
232-244): the source spreads the image record (`{...img, score, rawWeight}`);
here the extension is modelled as a wrapper holding the original record. -/
structure ScoredImage where
  img : ReferenceImage
  score : ℝ
  rawWeight : ℝ

/-- The per-image scoring step of `synthesizeAtPos` (App.tsx lines 234-243):
`sizeScore * proxWeight * 2` clamped to `[0, 10]` as the score, and the
unclamped `sizeScore * proxWeight` as the raw weight. -/
noncomputable def scoreImage (targetCenterX targetCenterY influenceRadius : ℝ)
    (img : ReferenceImage) : ScoredImage :=
  let sizeScore := calculateBaseSizeScore img.width img.height
  let proxWeight := calculateProximityWeight img.x img.y img.width img.height
      targetCenterX targetCenterY influenceRadius
  let combinedScore := sizeScore * proxWeight * 2
  { img := img
  , score := max 0 (min 10 combinedScore)
  , rawWeight := sizeScore * proxWeight }

/-- The `scoredImages` list of `synthesizeAtPos` (App.tsx lines 232-244):
drop items already generating, score the rest, keep only positive scores
(`(img.score || 0) > 0`). -/
noncomputable def scoredImages (images : List ReferenceImage)
    (targetCenterX targetCenterY influenceRadius : ℝ) : List ScoredImage :=
  ((images.filter (fun img => !img.isGenerating)).map
      (scoreImage targetCenterX targetCenterY influenceRadius)).filter
    (fun s => decide (0 < s.score))

/-- JavaScript `Math.round`: rounds to the nearest integer, halves toward
positive infinity, i.e. `⌊x + 1/2⌋`. -/
noncomputable def jsRound (x : ℝ) : ℤ := ⌊x + 1 / 2⌋

/-- `totalRawWeight` of `synthesizeAtPos` (App.tsx line 252). -/
noncomputable def totalRawWeight (scored : List ScoredImage) : ℝ :=
  (scored.map (fun s => s.rawWeight)).sum

/-- `synthesisSources` of `synthesizeAtPos` (App.tsx lines 253-256):
contribution percent per item is the rounded share of the total raw weight;
the list is then stable-sorted descending by contribution
(`.sort((a, b) => b.contribution - a.contribution)`). -/
noncomputable def synthesisSources (scored : List ScoredImage) : List SynthSource :=
  (scored.map (fun s =>
      SynthSource.mk s.img.base64 (jsRound (s.rawWeight / totalRawWeight scored * 100)))).mergeSort
    (fun a b => decide (b.contribution ≤ a.contribution))

/-- The loading-step indicator from `src/types.ts`. -/
inductive LoadingStep
  | IDLE
  | ANALYZING
  | GENERATING
  | COMPLETED
  | ERROR
deriving DecidableEq, Repr

/-- The aspect setting of `AppSettings` (source values `'1:1'`, `'4:3'`,
`'16:9'`, `'9:16'`). -/
inductive AspectKind
  | square
  | fourThree
  | sixteenNine
  | nineSixteen
deriving DecidableEq, Repr

/-- `AppSettings` from `src/types.ts` (the aspect field is spelled
`aspect` here). -/
structure AppSettings where
  model : String
  aspect : AspectKind
  influenceRadius : ℝ

/-- The target box height of `synthesizeAtPos` (App.tsx lines 223-227):
`height = size`, then adjusted by the aspect setting. -/
noncomputable def targetHeight (a : AspectKind) (size : ℝ) : ℝ :=
  match a with
  | .sixteenNine => size * (9 / 16)
  | .nineSixteen => size * (16 / 9)
  | .fourThree => size * (3 / 4)
  | .square => size

/-- The slice of the App.tsx component state that the synthesis
orchestrator, undo history and structural mutations read or write.
UI-only state (context menu, mouse position, pan flags, settings dialog,
viewport transform) is omitted; `selectedIds` is the selection set, kept as
a list of ids. -/
structure AppState where
  images : List ReferenceImage
  history : List (List ReferenceImage)
  error : Option String
  loadingStep : LoadingStep
  hasKey : Bool
  selectedIds : List String := []

/-- `saveToHistory` (App.tsx lines 97-99):
`setHistory(prev => [...prev.slice(-19), [...images]])` — push a copy of
the current collection, keeping at most the 19 previous entries (capacity
20).  `List.drop (h.length - 19) h` is `slice(-19)`; truncated subtraction
makes it the whole list when it is shorter than 19 entries. -/
def saveToHistory (h : List (List ReferenceImage)) (images : List ReferenceImage) :
    List (List ReferenceImage) :=
  h.drop (h.length - 19) ++ [images]

/-- `processFiles` (App.tsx lines 109-137): snapshot, then append the newly
ingested images.  File decoding happens outside the core; the decoded
records arrive here as `newImages`. -/
def processFiles (st : AppState) (newImages : List ReferenceImage) : AppState :=
  { st with history := saveToHistory st.history st.images
          , images := st.images ++ newImages }

/-- The remove handler given to each ImageCard and the context-menu
"Dissolve Node" entry (App.tsx lines 503-506 and 681-686): snapshot, then
drop the item with the given id. -/
def removeImage (st : AppState) (id : String) : AppState :=
  { st with history := saveToHistory st.history st.images
          , images := st.images.filter (fun i => i.id != id) }

/-- The Backspace/Delete branch of `handleKeyDown` (App.tsx lines 320-325),
for a key event whose target is not a text input: when the selection is
non-empty, snapshot, then drop every selected item and clear the
selection. -/
def deleteSelected (st : AppState) : AppState :=
  if st.selectedIds.isEmpty then st
  else
    { st with history := saveToHistory st.history st.images
            , images := st.images.filter (fun i => !st.selectedIds.contains i.id)
            , selectedIds := [] }

/-- The Ctrl/Cmd+Z branch of `handleKeyDown` (App.tsx lines 310-319): when
the history is non-empty, replace the live collection with the most recent
snapshot and pop it; otherwise do nothing. -/
def undoRestore (st : AppState) : AppState :=
  match st.history.getLast? with
  | some last => { st with images := last, history := st.history.dropLast }
  | none => st

/-- One structural insert (`processFiles` with a single decoded file). -/
def addImage (st : AppState) (item : ReferenceImage) : AppState :=
  processFiles st [item]

/-- A sequence of structural inserts, one file at a time. -/
def insertAll (items : List ReferenceImage) (st : AppState) : AppState :=
  items.foldl addImage st

/-- `k` successive Ctrl+Z restores. -/
def restoreK : ℕ → AppState → AppState
  | 0, st => st
  | k + 1, st => undoRestore (restoreK k st)

/-- An error thrown in the service layer or by an external call, carrying
the JavaScript `err.message` string. -/
structure GenError where
  message : String
deriving DecidableEq, Repr

/-- Character-list helper for `strIncludes`: does the second list start
with the first? -/
def charsStartWith : List Char → List Char → Bool
  | [], _ => true
  | _ :: _, [] => false
  | p :: ps, c :: cs => p == c && charsStartWith ps cs

/-- Character-list helper for `strIncludes`: does the pattern occur
anywhere in the list? -/
def charsHave (pat : List Char) : List Char → Bool
  | [] => charsStartWith pat []
  | c :: cs => charsStartWith pat (c :: cs) || charsHave pat cs

/-- JavaScript `s.includes(pat)`. -/
def strIncludes (s pat : String) : Bool :=
  charsHave pat.toList s.toList

/-- The effective credential of the service layer (geminiService.ts lines
28 and 51): `apiKey || process.env.NEXT_PUBLIC_GEMINI_API_KEY ||
process.env.API_KEY || ""` — the first non-empty of the three (JS `||` on
strings tests emptiness). -/
def effectiveKeyOf (apiKey envPublicKey envKey : String) : String :=
  if apiKey ≠ "" then apiKey
  else if envPublicKey ≠ "" then envPublicKey
  else if envKey ≠ "" then envKey
  else ""

/-- `GeminiService.generateSynthesisPrompt` (geminiService.ts lines 25-47)
with the external `generateContent` request left opaque: `externalText` is
the outcome the external model would produce (`Except.error` for a thrown
failure, `Except.ok t` for a response whose extracted, trimmed text is
`t`).  Returns the prompt result plus whether the external request was
actually issued: with an empty effective key the method throws
"API Key is missing." before any request, and an empty extracted text
falls back to the fixed prompt "A fusion of concepts.". -/
def generateSynthesisPrompt (key : String) (externalText : Except GenError String) :
    Except GenError String × Bool :=
  if key = "" then (.error ⟨"API Key is missing."⟩, false)
  else
    match externalText with
    | .error e => (.error e, true)
    | .ok t => (.ok (if t = "" then "A fusion of concepts." else t), true)

/-- `GeminiService.generateImage` (geminiService.ts lines 50-93) with the
external `generateImages` interaction left opaque: `externalImage` is the
final outcome of the try block (the data URL built from the returned
payload on success — including the internal Imagen fallback retry — or the
caught failure).  With an empty effective key the method throws
"API Key is missing." before any request; a caught failure is re-thrown
as `error.message || "Failed to generate image."`. -/
def generateImage (key : String) (externalImage : Except GenError String) :
    Except GenError String × Bool :=
  if key = "" then (.error ⟨"API Key is missing."⟩, false)
  else
    match externalImage with
    | .error e =>
      (.error ⟨if e.message = "" then "Failed to generate image." else e.message⟩, true)
    | .ok url => (.ok url, true)

/-- The credential-failure signature test in the catch branch of
`synthesizeAtPos` (App.tsx line 289):
`err.message?.includes("Requested entity was not found") ||
err.message?.includes("API_KEY")`. -/
def isAuthFailure (e : GenError) : Bool :=
  strIncludes e.message "Requested entity was not found" ||
    strIncludes e.message "API_KEY"

/-- The failure rollback of `synthesizeAtPos` (App.tsx line 295):
`setImages(prev => prev.filter(img => img.id !== genId))`. -/
def rollbackFailure (genId : String) (coll : List ReferenceImage) : List ReferenceImage :=
  coll.filter (fun img => img.id != genId)

/-- The catch branch of `synthesizeAtPos` (App.tsx lines 287-297): set the
error message — distinguishing credential-shaped failures, which also clear
`hasKey` — then remove the placeholder by id and enter the ERROR step. -/
def synthesisCatch (st : AppState) (genId : String) (e : GenError) : AppState :=
  let st' :=
    if isAuthFailure e then
      { st with
          error := some "API Key verification failed. Please re-select a valid paid project key."
        , hasKey := false }
    else
      { st with error := some (if e.message = "" then "Synthesis failed." else e.message) }
  { st' with images := rollbackFailure genId st'.images, loadingStep := .ERROR }

/-- The success reconciliation of `synthesizeAtPos` (App.tsx lines
277-285): a per-id map that fills the generated image into the placeholder,
clears the generating flag and attaches the provenance record; every
non-matching item is returned as-is. -/
def reconcileSuccess (genId prompt imageUrl : String) (sources : List SynthSource)
    (coll : List ReferenceImage) : List ReferenceImage :=
  coll.map fun img =>
    if img.id = genId then
      { img with base64 := imageUrl
               , isGenerating := false
               , synthesisData := some ⟨prompt, sources⟩ }
    else img

/-- Observable effects of one `synthesizeAtPos` invocation, in order: the
placeholder insertion and the external service requests actually issued. -/
inductive SynthEvent
  | placeholderInserted
  | promptRequested
  | imageRequested
deriving DecidableEq, Repr

/-- `synthesizeAtPos` (App.tsx lines 211-298) as a function of the
pre-invocation state.  `genId` stands for the fresh `uuidv4()`;
`envPublicKey` and `envKey` are the build-time environment credentials the
service layer falls back to; `externalText` and `externalImage` are the
opaque outcomes of the two external requests (relevant only when the
corresponding request is actually issued).  Returns the post-invocation
state together with the ordered list of observable events.  This is the
straight-line execution — no other event handler runs between the two
suspension points; the phase functions `reconcileSuccess` and
`rollbackFailure` are stated separately to reason about interleaved
edits. -/
noncomputable def synthesizeAtPos (st : AppState) (settings : AppSettings)
    (apiKey envPublicKey envKey : String) (posX posY size : ℝ) (genId : String)
    (externalText externalImage : Except GenError String) :
    AppState × List SynthEvent :=
  if !st.hasKey then
    ({ st with error := some "Please connect your API key to synthesize." }, [])
  else
    let st0 := { st with loadingStep := LoadingStep.ANALYZING, error := none }
    let width := size
    let height := targetHeight settings.aspect size
    let targetCenterX := posX + width / 2
    let targetCenterY := posY + height / 2
    let scored := scoredImages st0.images targetCenterX targetCenterY settings.influenceRadius
    if scored.isEmpty then
      ({ st0 with
          error := some "Synthesis field is empty. Move reference images closer to the synthesis target."
        , loadingStep := LoadingStep.IDLE }, [])
    else
      let sources := synthesisSources scored
      let placeholder : ReferenceImage :=
        { id := genId, base64 := "", x := posX, y := posY
        , width := width, height := height, isGenerating := true }
      let st1 := { st0 with images := st0.images ++ [placeholder] }
      let key := effectiveKeyOf apiKey envPublicKey envKey
      match generateSynthesisPrompt key externalText with
      | (.error e, called) =>
        (synthesisCatch st1 genId e,
          .placeholderInserted :: if called then [.promptRequested] else [])
      | (.ok prompt, called) =>
        let st2 := { st1 with loadingStep := LoadingStep.GENERATING }
        match generateImage key externalImage with
        | (.error e, called2) =>
          (synthesisCatch st2 genId e,
            .placeholderInserted ::
              ((if called then [SynthEvent.promptRequested] else []) ++
                if called2 then [SynthEvent.imageRequested] else []))
        | (.ok imageUrl, called2) =>
          ({ st2 with
              images := reconcileSuccess genId prompt imageUrl sources st2.images
            , loadingStep := LoadingStep.COMPLETED },
            .placeholderInserted ::
              ((if called then [SynthEvent.promptRequested] else []) ++
                if called2 then [SynthEvent.imageRequested] else []))

/-- A 200×200 reference image at the origin, used for concrete scenarios:
its center is `(100, 100)` and its area equals the normalization constant
40000, so against a target centered at `(100, 100)` with radius 1000 its
size score is 1, proximity weight 1, raw weight 1 and clamped score 2. -/
def item200 (i : String) : ReferenceImage :=
  { id := i, base64 := "", x := 0, y := 0, width := 200, height := 200 }


/-- Seven reference images of equal raw weight against the target centered
at `(100, 100)`. -/
def imgs7 : List ReferenceImage :=
  [item200 "c1", item200 "c2", item200 "c3", item200 "c4", item200 "c5",
   item200 "c6", item200 "c7"]


/-- A pending synthesis placeholder with id "g", for concrete scenarios. -/
def phG : ReferenceImage :=
  { id := "g", base64 := "", x := 5, y := 6, width := 100, height := 100
  , isGenerating := true }

/-- A one-item board with the credential flag set, for concrete runs. -/
def stW : AppState :=
  { images := [item200 "w"], history := [], error := none
  , loadingStep := LoadingStep.IDLE, hasKey := true }

/-- Default settings for concrete runs: square aspect, radius 1000. -/
def settingsW : AppSettings :=
  ⟨"gemini-2.5-flash-image", AspectKind.square, 1000⟩

/-- A keyless board for the C9 scenario. -/
def stNoKey : AppState :=
  { images := [item200 "w"], history := [], error := none
  , loadingStep := LoadingStep.IDLE, hasKey := false }

/-- An empty board with empty history, for the undo scenarios. -/
def stE : AppState :=
  { images := [], history := [], error := none
  , loadingStep := LoadingStep.IDLE, hasKey := true }

/-- Twenty-one distinct reference images, to overflow the undo capacity. -/
def items21 : List ReferenceImage :=
  (List.range 21).map (fun k => item200 (toString k))

/-- The centered 200-square item scores to size score 1, proximity 1,
clamped score 2, raw weight 1. -/
theorem scoreImage_item200 (i : String) :
    scoreImage 100 100 1000 (item200 i) = ⟨item200 i, 2, 1⟩ := by
  simp only [scoreImage, calculateBaseSizeScore, calculateProximityWeight, item200]
  norm_num [ScoredImage.mk.injEq, Real.sqrt_zero]

/-- The seven centered items all survive the filter with raw weight 1. -/
theorem scoredImages_imgs7 :
    scoredImages imgs7 100 100 1000 = imgs7.map (fun im => ⟨im, 2, 1⟩) := by
  simp only [scoredImages, imgs7]
  rw [show List.filter (fun img => !img.isGenerating)
      [item200 "c1", item200 "c2", item200 "c3", item200 "c4", item200 "c5",
       item200 "c6", item200 "c7"]
      = [item200 "c1", item200 "c2", item200 "c3", item200 "c4", item200 "c5",
         item200 "c6", item200 "c7"] by simp [item200]]
  simp only [List.map_cons, List.map_nil, scoreImage_item200]
  norm_num [List.filter_cons]

/-- C5: for every item, target and radius > 0, writing `d` for the Euclidean
distance between the item's center and the target center, the proximity
weight equals `1` at `d = 0`, equals `0` at `d = radius`, equals `0` for
every `d > radius`, equals `1 - d/radius` on `[0, radius]`, and is
monotonically decreasing in `d` over `[0, radius]` (stated over a second
item configuration at distance `d2 ≥ d`). -/
theorem calculateProximityWeight_spec
    (imgX imgY imgW imgH targetX targetY radius d : ℝ) (hr : 0 < radius)
    (hd : Real.sqrt ((imgX + imgW / 2 - targetX) ^ 2 + (imgY + imgH / 2 - targetY) ^ 2) = d) :
    (d = 0 → calculateProximityWeight imgX imgY imgW imgH targetX targetY radius = 1) ∧
    (d = radius → calculateProximityWeight imgX imgY imgW imgH targetX targetY radius = 0) ∧
    (radius < d → calculateProximityWeight imgX imgY imgW imgH targetX targetY radius = 0) ∧
    (d ≤ radius →
      calculateProximityWeight imgX imgY imgW imgH targetX targetY radius = 1 - d / radius) ∧
    (∀ jX jY jW jH d2 : ℝ,
      Real.sqrt ((jX + jW / 2 - targetX) ^ 2 + (jY + jH / 2 - targetY) ^ 2) = d2 →
      d ≤ d2 → d2 ≤ radius →
      calculateProximityWeight jX jY jW jH targetX targetY radius ≤
        calculateProximityWeight imgX imgY imgW imgH targetX targetY radius) := by
  have hval : ∀ aX aY aW aH e : ℝ,
      Real.sqrt ((aX + aW / 2 - targetX) ^ 2 + (aY + aH / 2 - targetY) ^ 2) = e →
      calculateProximityWeight aX aY aW aH targetX targetY radius =
        if radius < e then 0 else 1 - e / radius := by
    intro aX aY aW aH e he
    simp only [calculateProximityWeight]
    rw [he]
  have hmain := hval imgX imgY imgW imgH d hd
  refine ⟨?_, ?_, ?_, ?_, ?_⟩
  · intro h0
    rw [hmain, h0]
    rw [if_neg (by linarith), zero_div, sub_zero]
  · intro heq
    rw [hmain, heq, if_neg (lt_irrefl radius), div_self (ne_of_gt hr), sub_self]
  · intro hgt
    rw [hmain, if_pos hgt]
  · intro hle
    rw [hmain, if_neg (not_lt.mpr hle)]
  · intro jX jY jW jH d2 hd2 hled hle2
    rw [hmain, hval jX jY jW jH d2 hd2]
    rw [if_neg (not_lt.mpr hle2), if_neg (not_lt.mpr (le_trans hled hle2))]
    have : d / radius ≤ d2 / radius := (div_le_div_right hr).mpr hled
    linarith

/-- Closed instance of `calculateProximityWeight_spec`: a 100×100 item at the
origin whose center coincides with the target center `(50, 50)`, radius 1000,
has proximity weight 1. -/
theorem calculateProximityWeight_spec_witness :
    calculateProximityWeight 0 0 100 100 50 50 1000 = 1 :=
  (calculateProximityWeight_spec 0 0 100 100 50 50 1000 0 (by norm_num)
    (by rw [show ((0 : ℝ) + 100 / 2 - 50) ^ 2 + ((0 : ℝ) + 100 / 2 - 50) ^ 2 = 0 by norm_num,
            Real.sqrt_zero])).1 rfl

/-- Everything the positive-score filter keeps has positive raw weight. -/
theorem mem_scoredImages_pos (images : List ReferenceImage) (cx cy r : ℝ)
    (s : ScoredImage) (hs : s ∈ scoredImages images cx cy r) : 0 < s.rawWeight := by
  unfold scoredImages at hs
  rcases List.mem_filter.mp hs with ⟨hmem, hpos⟩
  have hscore : 0 < s.score := of_decide_eq_true hpos
  rcases List.mem_map.mp hmem with ⟨img, _, rfl⟩
  simp only [scoreImage] at hscore ⊢
  rcases lt_max_iff.mp hscore with h | h
  · exact absurd h (lt_irrefl 0)
  · rcases lt_min_iff.mp h with ⟨-, h2⟩
    nlinarith

/-- Summing the rounded values of a list stays within `length / 2` of the
sum of the values (each `⌊x + 1/2⌋` is within `1/2` of `x`). -/
theorem sum_jsRound_bounds (xs : List ℝ) :
    xs.sum - (xs.length : ℝ) / 2 ≤ ((xs.map jsRound).sum : ℝ) ∧
    ((xs.map jsRound).sum : ℝ) ≤ xs.sum + (xs.length : ℝ) / 2 := by
  induction xs with
  | nil => simp
  | cons a l ih =>
    have h1 : (a : ℝ) - 1 / 2 < (jsRound a : ℝ) := by
      have := Int.sub_one_lt_floor (a + 1 / 2)
      unfold jsRound
      push_cast at this ⊢
      linarith
    have h2 : ((jsRound a : ℤ) : ℝ) ≤ a + 1 / 2 := by
      have := Int.floor_le (a + 1 / 2)
      unfold jsRound
      push_cast at this ⊢
      linarith
    obtain ⟨ih1, ih2⟩ := ih
    simp only [List.map_cons, List.sum_cons, List.length_cons]
    push_cast at ih1 ih2 ⊢
    constructor <;> linarith

/-- The shares `rawWeight / W * 100` sum to `(Σ rawWeight) / W * 100`. -/
theorem sum_map_share (scored : List ScoredImage) (W : ℝ) :
    (scored.map (fun s => s.rawWeight / W * 100)).sum
      = (scored.map (fun s => s.rawWeight)).sum / W * 100 := by
  induction scored with
  | nil => simp
  | cons a l ih =>
    simp only [List.map_cons, List.sum_cons, ih]
    ring

/-- Sorting does not change the multiset of contributions, so their sum is
the sum of the rounded shares over the scored list. -/
theorem synthesisSources_sum_eq (scored : List ScoredImage) :
    ((synthesisSources scored).map (fun c => c.contribution)).sum
      = ((scored.map (fun s => jsRound (s.rawWeight / totalRawWeight scored * 100))).sum) := by
  unfold synthesisSources
  have hperm := List.mergeSort_perm
    (scored.map (fun s =>
      SynthSource.mk s.img.base64 (jsRound (s.rawWeight / totalRawWeight scored * 100))))
    (fun a b => decide (b.contribution ≤ a.contribution))
  have := (hperm.map (fun c => c.contribution)).sum_eq
  rw [this, List.map_map]
  rfl

/-- C1 (amended): for every synthesis invocation whose scored set is
non-empty, the `contributionPercent` values of the provenance record
(`round(100 * rawWeight_i / Σ rawWeight_j)` per contributor) sum to a value
within `n/2` of 100, where `n` is the number of contributors (each rounding
moves the exact share by at most `1/2`; the claimed `[99, 101]` band holds
for `n ≤ 2` but not in general), and every item with raw weight 0 is absent
from the contributor list. -/
theorem contributionPercent_sum_bounds (images : List ReferenceImage) (cx cy r : ℝ)
    (hne : scoredImages images cx cy r ≠ []) :
    (200 - ((scoredImages images cx cy r).length : ℤ)
        ≤ 2 * ((synthesisSources (scoredImages images cx cy r)).map
            (fun c => c.contribution)).sum ∧
      2 * ((synthesisSources (scoredImages images cx cy r)).map
            (fun c => c.contribution)).sum
        ≤ 200 + ((scoredImages images cx cy r).length : ℤ)) ∧
    (∀ img ∈ images, (scoreImage cx cy r img).rawWeight = 0 →
      img ∉ (scoredImages images cx cy r).map (fun s => s.img)) := by
  set scored := scoredImages images cx cy r with hscored
  constructor
  · have hWpos : 0 < totalRawWeight scored := by
      unfold totalRawWeight
      apply List.sum_pos
      · intro x hx
        rcases List.mem_map.mp hx with ⟨s, hsmem, rfl⟩
        exact mem_scoredImages_pos images cx cy r s hsmem
      · simpa using hne
    have hshare : (scored.map (fun s => s.rawWeight / totalRawWeight scored * 100)).sum
        = 100 := by
      rw [sum_map_share]
      rw [show (scored.map (fun s => s.rawWeight)).sum = totalRawWeight scored from rfl]
      rw [div_self (ne_of_gt hWpos)]
      norm_num
    have hbounds := sum_jsRound_bounds (scored.map (fun s => s.rawWeight / totalRawWeight scored * 100))
    rw [hshare, List.length_map] at hbounds
    have hrw : (scored.map (fun s => jsRound (s.rawWeight / totalRawWeight scored * 100)))
        = (scored.map (fun s => s.rawWeight / totalRawWeight scored * 100)).map jsRound := by
      rw [List.map_map]
      rfl
    have hSeq := synthesisSources_sum_eq scored
    rw [hrw] at hSeq
    set S : ℤ := ((synthesisSources scored).map (fun c => c.contribution)).sum with hS
    have hSr : (S : ℝ) = ((scored.map (fun s => s.rawWeight / totalRawWeight scored * 100)).map
        jsRound).sum :=
      congrArg (fun z : ℤ => (z : ℝ)) hSeq
    rw [← hSr] at hbounds
    constructor
    · have : (200 : ℝ) - (scored.length : ℝ) ≤ 2 * (S : ℝ) := by linarith [hbounds.1]
      exact_mod_cast this
    · have : 2 * (S : ℝ) ≤ (200 : ℝ) + (scored.length : ℝ) := by linarith [hbounds.2]
      exact_mod_cast this
  · intro img _ hraw hmem
    rcases List.mem_map.mp hmem with ⟨s, hsmem, hsimg⟩
    have hpos : 0 < s.rawWeight := mem_scoredImages_pos images cx cy r s hsmem
    have : s ∈ ((images.filter (fun img => !img.isGenerating)).map
        (scoreImage cx cy r)) := (List.mem_filter.mp hsmem).1
    rcases List.mem_map.mp this with ⟨img', _, rfl⟩
    have himg' : img' = img := hsimg
    rw [himg'] at hpos
    rw [hraw] at hpos
    exact lt_irrefl 0 hpos

/-- A single centered contributor scores to `⟨item, 2, 1⟩`. -/
theorem scoredImages_single (i : String) :
    scoredImages [item200 i] 100 100 1000 = [⟨item200 i, 2, 1⟩] := by
  simp only [scoredImages]
  rw [show List.filter (fun img => !img.isGenerating) [item200 i] = [item200 i] by
    simp [item200]]
  rw [List.map_cons, List.map_nil, scoreImage_item200]
  norm_num [List.filter_cons]

/-- C1 counterexample: a synthesis invocation over seven equal-raw-weight
contributors (each 200×200, centered exactly on the target center, radius
1000) gives each contributor `round(100/7) = 14` percent, so the
contribution percentages sum to 98, outside the claimed `[99, 101]`. -/
theorem contributionPercent_sum_counterexample :
    ((synthesisSources (scoredImages imgs7 100 100 1000)).map
        (fun c => c.contribution)).sum = 98 ∧
    ¬(99 ≤ ((synthesisSources (scoredImages imgs7 100 100 1000)).map
          (fun c => c.contribution)).sum ∧
      ((synthesisSources (scoredImages imgs7 100 100 1000)).map
          (fun c => c.contribution)).sum ≤ 101) := by
  have h98 : ((synthesisSources (scoredImages imgs7 100 100 1000)).map
      (fun c => c.contribution)).sum = 98 := by
    rw [synthesisSources_sum_eq, scoredImages_imgs7]
    have hW : totalRawWeight (imgs7.map (fun im => (⟨im, 2, 1⟩ : ScoredImage))) = 7 := by
      simp [totalRawWeight, imgs7]
      norm_num
    rw [hW]
    simp only [imgs7, List.map_cons, List.map_nil, List.sum_cons, List.sum_nil]
    norm_num [jsRound]
  refine ⟨h98, ?_⟩
  rw [h98]
  decide

/-- Closed instance of `contributionPercent_sum_bounds`: for the single
centered contributor the bound gives a contribution sum of exactly 100
(here in the doubled-integer form `200 - 1 ≤ 2S ∧ 2S ≤ 200 + 1`), and the
scored list is non-empty. -/
theorem contributionPercent_sum_bounds_witness :
    (200 - ((scoredImages [item200 "w"] 100 100 1000).length : ℤ)
        ≤ 2 * ((synthesisSources (scoredImages [item200 "w"] 100 100 1000)).map
            (fun c => c.contribution)).sum ∧
      2 * ((synthesisSources (scoredImages [item200 "w"] 100 100 1000)).map
            (fun c => c.contribution)).sum
        ≤ 200 + ((scoredImages [item200 "w"] 100 100 1000).length : ℤ)) ∧
    (∀ img ∈ [item200 "w"], (scoreImage 100 100 1000 img).rawWeight = 0 →
      img ∉ (scoredImages [item200 "w"] 100 100 1000).map (fun s => s.img)) :=
  contributionPercent_sum_bounds [item200 "w"] 100 100 1000 (by
    have : scoredImages [item200 "w"] 100 100 1000 = [⟨item200 "w", 2, 1⟩] := by
      simp only [scoredImages]
      rw [show List.filter (fun img => !img.isGenerating) [item200 "w"] = [item200 "w"] by
        simp [item200]]
      rw [List.map_cons, List.map_nil, scoreImage_item200]
      norm_num [List.filter_cons]
    rw [this]
    exact List.cons_ne_nil _ _)

/-- C4: for every viewport transform whose scale lies in the clamped range
`[0.05, 5]` and every screen anchor point, the wheel-zoom step (which
replaces scale `s0` by the clamped `s1` and sets
`offset' = m - (m - offset) * (s1 / s0)` per axis) leaves the canvas
coordinate under the anchor, `(screen - offset) / scale`, unchanged. -/
theorem handleWheel_canvas_point_invariant (t : Transform) (deltaY mouseX mouseY : ℚ)
    (hlo : 1 / 20 ≤ t.scale) (hhi : t.scale ≤ 5) :
    canvasCoord (handleWheel t deltaY mouseX mouseY).x
        (handleWheel t deltaY mouseX mouseY).scale mouseX
      = canvasCoord t.x t.scale mouseX ∧
    canvasCoord (handleWheel t deltaY mouseX mouseY).y
        (handleWheel t deltaY mouseX mouseY).scale mouseY
      = canvasCoord t.y t.scale mouseY := by
  have hs0 : (0 : ℚ) < t.scale := lt_of_lt_of_le (by norm_num) hlo
  have hns : (1 : ℚ) / 20 ≤ min 5 (max (1 / 20) (t.scale * (1 - deltaY * (1 / 1000)))) :=
    le_min (by norm_num) (le_max_left _ _)
  have hns0 : (0 : ℚ) < min 5 (max (1 / 20) (t.scale * (1 - deltaY * (1 / 1000)))) :=
    lt_of_lt_of_le (by norm_num) hns
  constructor <;>
    · show canvasCoord _ _ _ = canvasCoord _ _ _
      unfold handleWheel canvasCoord
      field_simp
      ring

/-- Closed instance of `handleWheel_canvas_point_invariant` at a concrete
transform and wheel event. -/
theorem handleWheel_canvas_point_invariant_witness :
    canvasCoord (handleWheel ⟨3, 4, 1⟩ 100 7 9).x
        (handleWheel ⟨3, 4, 1⟩ 100 7 9).scale 7
      = canvasCoord 3 1 7 ∧
    canvasCoord (handleWheel ⟨3, 4, 1⟩ 100 7 9).y
        (handleWheel ⟨3, 4, 1⟩ 100 7 9).scale 9
      = canvasCoord 4 1 9 :=
  handleWheel_canvas_point_invariant ⟨3, 4, 1⟩ 100 7 9 (by norm_num) (by norm_num)

/-- C7: the success reconciliation mutates exactly the item carrying the
invocation's generated id — keeping its id, position and size, clearing
the pending state, populating the image data and attaching the provenance
record — and returns every other item of the collection unchanged, in
place (same index, same length).  Stated over an arbitrary collection, so
it covers items added, moved or resized while the external calls were in
flight. -/
theorem reconcileSuccess_exact (genId prompt imageUrl : String)
    (sources : List SynthSource) (coll : List ReferenceImage) :
    (reconcileSuccess genId prompt imageUrl sources coll).length = coll.length ∧
    (∀ i (h : i < coll.length)
        (h2 : i < (reconcileSuccess genId prompt imageUrl sources coll).length),
      ((coll.get ⟨i, h⟩).id ≠ genId →
        (reconcileSuccess genId prompt imageUrl sources coll).get ⟨i, h2⟩
          = coll.get ⟨i, h⟩) ∧
      ((coll.get ⟨i, h⟩).id = genId →
        (reconcileSuccess genId prompt imageUrl sources coll).get ⟨i, h2⟩
          = { coll.get ⟨i, h⟩ with
                base64 := imageUrl
              , isGenerating := false
              , synthesisData := some ⟨prompt, sources⟩ } ∧
        ((reconcileSuccess genId prompt imageUrl sources coll).get ⟨i, h2⟩).id
          = (coll.get ⟨i, h⟩).id ∧
        ((reconcileSuccess genId prompt imageUrl sources coll).get ⟨i, h2⟩).x
          = (coll.get ⟨i, h⟩).x ∧
        ((reconcileSuccess genId prompt imageUrl sources coll).get ⟨i, h2⟩).y
          = (coll.get ⟨i, h⟩).y ∧
        ((reconcileSuccess genId prompt imageUrl sources coll).get ⟨i, h2⟩).width
          = (coll.get ⟨i, h⟩).width ∧
        ((reconcileSuccess genId prompt imageUrl sources coll).get ⟨i, h2⟩).height
          = (coll.get ⟨i, h⟩).height ∧
        ((reconcileSuccess genId prompt imageUrl sources coll).get ⟨i, h2⟩).isGenerating
          = false ∧
        ((reconcileSuccess genId prompt imageUrl sources coll).get ⟨i, h2⟩).base64
          = imageUrl ∧
        ((reconcileSuccess genId prompt imageUrl sources coll).get ⟨i, h2⟩).synthesisData
          = some ⟨prompt, sources⟩)) := by
  refine ⟨List.length_map _ _, ?_⟩
  intro i h h2
  have hget : (reconcileSuccess genId prompt imageUrl sources coll).get ⟨i, h2⟩
      = (fun img => if img.id = genId then
          { img with base64 := imageUrl
                   , isGenerating := false
                   , synthesisData := some ⟨prompt, sources⟩ }
        else img) (coll.get ⟨i, h⟩) := by
    simp [reconcileSuccess, List.get_eq_getElem, List.getElem_map]
  constructor
  · intro hne
    rw [hget]
    exact if_neg hne
  · intro heq
    rw [hget]
    simp only [List.get_eq_getElem] at heq
    simp [heq]

/-- Closed instance of `reconcileSuccess_exact`: in the two-item collection
`[item200 "a", phG]`, reconciling id "g" returns the first item unchanged
and replaces the placeholder in place. -/
theorem reconcileSuccess_exact_witness :
    ((item200 "a").id ≠ "g" ∧
      (reconcileSuccess "g" "p" "u" [] [item200 "a", phG]).get ⟨0, by decide⟩
        = item200 "a") ∧
    (phG.id = "g" ∧
      (reconcileSuccess "g" "p" "u" [] [item200 "a", phG]).get ⟨1, by decide⟩
        = { phG with base64 := "u", isGenerating := false
                   , synthesisData := some ⟨"p", []⟩ }) := by
  have h := reconcileSuccess_exact "g" "p" "u" [] [item200 "a", phG]
  refine ⟨⟨by decide, ?_⟩, ⟨rfl, ?_⟩⟩
  · exact (h.2 0 (by decide) (by decide)).1 (by decide)
  · exact ((h.2 1 (by decide) (by decide)).2 rfl).1

/-- Nothing that survives the rollback filter carries the rolled-back id. -/
theorem rollbackFailure_no_id (genId : String) (coll : List ReferenceImage) :
    ∀ img ∈ rollbackFailure genId coll, img.id ≠ genId := by
  intro img hmem
  have := (List.mem_filter.mp hmem).2
  simpa using this

/-- Rolling back an id that occurs nowhere leaves the collection as-is. -/
theorem rollbackFailure_eq_self (genId : String) (coll : List ReferenceImage)
    (hne : ∀ img ∈ coll, img.id ≠ genId) : rollbackFailure genId coll = coll := by
  unfold rollbackFailure
  rw [List.filter_eq_self]
  intro a ha
  simpa using hne a ha

/-- Reconciling an id that occurs nowhere leaves the collection as-is. -/
theorem reconcileSuccess_eq_self (genId prompt imageUrl : String)
    (sources : List SynthSource) (coll : List ReferenceImage)
    (hne : ∀ img ∈ coll, img.id ≠ genId) :
    reconcileSuccess genId prompt imageUrl sources coll = coll := by
  induction coll with
  | nil => rfl
  | cons a t ih =>
    have ha : a.id ≠ genId := hne a (List.mem_cons_self a t)
    have ht := ih (fun img hm => hne img (List.mem_cons_of_mem a hm))
    simp only [reconcileSuccess, List.map_cons, if_neg ha] at ht ⊢
    rw [ht]

/-- The catch branch removes the generated id from the collection. -/
theorem synthesisCatch_images (st : AppState) (genId : String) (e : GenError) :
    (synthesisCatch st genId e).images = rollbackFailure genId st.images := by
  unfold synthesisCatch
  by_cases hauth : isAuthFailure e = true <;> simp [hauth]

/-- The catch branch always records a non-null error message. -/
theorem synthesisCatch_error (st : AppState) (genId : String) (e : GenError) :
    (synthesisCatch st genId e).error.isSome = true := by
  unfold synthesisCatch
  by_cases hauth : isAuthFailure e = true <;> simp [hauth]

/-- The catch branch ends in the ERROR loading step. -/
theorem synthesisCatch_step (st : AppState) (genId : String) (e : GenError) :
    (synthesisCatch st genId e).loadingStep = LoadingStep.ERROR := by
  unfold synthesisCatch
  by_cases hauth : isAuthFailure e = true <;> simp [hauth]

/-- The catch branch never touches the undo history. -/
theorem synthesisCatch_history (st : AppState) (genId : String) (e : GenError) :
    (synthesisCatch st genId e).history = st.history := by
  unfold synthesisCatch
  by_cases hauth : isAuthFailure e = true <;> simp [hauth]

/-- C10: when the collection no longer contains the invocation's generated
id (for example because the user deleted the pending placeholder while the
external calls were in flight), both the success reconciliation (per-id
map) and the failure rollback (per-id filter) leave the collection exactly
unchanged: a removed placeholder is never resurrected and nothing else is
touched. -/
theorem absent_id_leaves_collection (genId prompt imageUrl : String)
    (sources : List SynthSource) (coll : List ReferenceImage)
    (habs : genId ∉ coll.map (fun img => img.id)) :
    reconcileSuccess genId prompt imageUrl sources coll = coll ∧
    rollbackFailure genId coll = coll := by
  have hne : ∀ img ∈ coll, img.id ≠ genId := by
    intro img hmem heq
    exact habs (List.mem_map.mpr ⟨img, hmem, heq⟩)
  exact ⟨reconcileSuccess_eq_self genId prompt imageUrl sources coll hne,
    rollbackFailure_eq_self genId coll hne⟩

/-- Closed instance of `absent_id_leaves_collection` on the one-item
collection `[item200 "a"]` with absent id "g". -/
theorem absent_id_leaves_collection_witness :
    reconcileSuccess "g" "p" "u" [] [item200 "a"] = [item200 "a"] ∧
    rollbackFailure "g" [item200 "a"] = [item200 "a"] :=
  absent_id_leaves_collection "g" "p" "u" [] [item200 "a"] (by decide)

/-- C3: with the credential flag set, when no non-pending item has a
positive combined score against the target, `synthesizeAtPos` fails fast
with the empty-influence-field condition: no external request is issued,
no placeholder is inserted, and the Placeable collection (and history) are
exactly as before — only the error message and loading step change. -/
theorem synthesizeAtPos_empty_field (st : AppState) (settings : AppSettings)
    (apiKey envPublicKey envKey : String) (posX posY size : ℝ) (genId : String)
    (externalText externalImage : Except GenError String)
    (hkey : st.hasKey = true)
    (hempty : ∀ img ∈ st.images, img.isGenerating = false →
      (scoreImage (posX + size / 2) (posY + targetHeight settings.aspect size / 2)
          settings.influenceRadius img).score ≤ 0) :
    synthesizeAtPos st settings apiKey envPublicKey envKey posX posY size genId
        externalText externalImage
      = ({ st with
            loadingStep := LoadingStep.IDLE
          , error := some "Synthesis field is empty. Move reference images closer to the synthesis target." },
        []) := by
  have hscored : scoredImages st.images (posX + size / 2)
      (posY + targetHeight settings.aspect size / 2) settings.influenceRadius = [] := by
    unfold scoredImages
    rw [List.filter_eq_nil_iff]
    intro s hs
    rcases List.mem_map.mp hs with ⟨img, himgmem, rfl⟩
    rcases List.mem_filter.mp himgmem with ⟨hmem, hgen⟩
    have hgen' : img.isGenerating = false := by simpa using hgen
    have hle := hempty img hmem hgen'
    simp only [decide_eq_true_eq]
    exact not_lt.mpr hle
  unfold synthesizeAtPos
  rw [hkey]
  simp only [Bool.not_true, if_neg (by simp : ¬(false = true))]
  simp only [hscored]
  simp

/-- Closed instance of `synthesizeAtPos_empty_field`: with the flag set and
an empty canvas the invocation only records the empty-field error. -/
theorem synthesizeAtPos_empty_field_witness :
    synthesizeAtPos
        { images := [], history := [], error := none
        , loadingStep := LoadingStep.IDLE, hasKey := true }
        ⟨"gemini-2.5-flash-image", AspectKind.square, 1000⟩
        "k" "" "" 0 0 200 "g" (Except.ok "p") (Except.ok "u")
      = ({ images := [], history := []
         , error := some "Synthesis field is empty. Move reference images closer to the synthesis target."
         , loadingStep := LoadingStep.IDLE, hasKey := true }, []) :=
  synthesizeAtPos_empty_field
    { images := [], history := [], error := none
    , loadingStep := LoadingStep.IDLE, hasKey := true }
    ⟨"gemini-2.5-flash-image", AspectKind.square, 1000⟩
    "k" "" "" 0 0 200 "g" (Except.ok "p") (Except.ok "u") rfl (by simp)

/-- C2: when either external request fails after the Pending placeholder
was inserted (the prompt request, or the image request after a successful
prompt), the invocation removes the placeholder's id entirely from the
collection — the collection keeps no trace of the generated id and every
other item stays exactly as it was at failure time — and the failure is
surfaced: a non-null error message is recorded and the loading step is
ERROR.  When the generated id was fresh, the collection is exactly the
pre-invocation one. -/
theorem synthesizeAtPos_failure_rollback (st : AppState) (settings : AppSettings)
    (apiKey envPublicKey envKey : String) (posX posY size : ℝ) (genId : String)
    (externalText externalImage : Except GenError String)
    (hkey : st.hasKey = true)
    (hk : effectiveKeyOf apiKey envPublicKey envKey ≠ "")
    (hscored : scoredImages st.images (posX + size / 2)
        (posY + targetHeight settings.aspect size / 2) settings.influenceRadius ≠ [])
    (hfail : (∃ e, externalText = Except.error e) ∨
      (∃ p e, externalText = Except.ok p ∧ externalImage = Except.error e)) :
    (synthesizeAtPos st settings apiKey envPublicKey envKey posX posY size genId
        externalText externalImage).1.images
      = rollbackFailure genId (st.images ++
          [{ id := genId, base64 := "", x := posX, y := posY, width := size
           , height := targetHeight settings.aspect size, isGenerating := true }]) ∧
    (∀ img ∈ (synthesizeAtPos st settings apiKey envPublicKey envKey posX posY size genId
        externalText externalImage).1.images, img.id ≠ genId) ∧
    (genId ∉ st.images.map (fun im => im.id) →
      (synthesizeAtPos st settings apiKey envPublicKey envKey posX posY size genId
        externalText externalImage).1.images = st.images) ∧
    (synthesizeAtPos st settings apiKey envPublicKey envKey posX posY size genId
        externalText externalImage).1.error.isSome = true ∧
    (synthesizeAtPos st settings apiKey envPublicKey envKey posX posY size genId
        externalText externalImage).1.loadingStep = LoadingStep.ERROR := by
  have hfresh : ∀ coll : List ReferenceImage,
      genId ∉ st.images.map (fun im => im.id) →
      coll = rollbackFailure genId (st.images ++
          [{ id := genId, base64 := "", x := posX, y := posY, width := size
           , height := targetHeight settings.aspect size, isGenerating := true }]) →
      coll = st.images := by
    intro coll hniff hcoll
    have hne : ∀ img ∈ st.images, img.id ≠ genId := by
      intro img hmem heq
      exact hniff (List.mem_map.mpr ⟨img, hmem, heq⟩)
    rw [hcoll]
    unfold rollbackFailure
    rw [List.filter_append]
    have h1 : st.images.filter (fun img => img.id != genId) = st.images := by
      rw [List.filter_eq_self]
      intro a ha
      simpa using hne a ha
    have h2 : List.filter (fun img => img.id != genId)
        ([{ id := genId, base64 := "", x := posX, y := posY, width := size
          , height := targetHeight settings.aspect size, isGenerating := true }] :
          List ReferenceImage) = [] := by
      simp
    rw [h1, h2, List.append_nil]
  have hni : (scoredImages st.images (posX + size / 2)
      (posY + targetHeight settings.aspect size / 2) settings.influenceRadius).isEmpty
      = false := by
    cases h : (scoredImages st.images (posX + size / 2)
        (posY + targetHeight settings.aspect size / 2) settings.influenceRadius).isEmpty
    · rfl
    · exact absurd (List.isEmpty_iff.mp h) hscored
  rcases hfail with ⟨e, rfl⟩ | ⟨p, e, rfl, rfl⟩
  · have hshape : synthesizeAtPos st settings apiKey envPublicKey envKey posX posY size genId
        (Except.error e) externalImage
        = (synthesisCatch
            (AppState.mk (st.images ++
              [{ id := genId, base64 := "", x := posX, y := posY, width := size
               , height := targetHeight settings.aspect size, isGenerating := true }])
              st.history none LoadingStep.ANALYZING true st.selectedIds) genId e,
           [SynthEvent.placeholderInserted, SynthEvent.promptRequested]) := by
      simp only [synthesizeAtPos, hkey, Bool.not_true, Bool.false_eq_true, if_false,
        if_true, hni, generateSynthesisPrompt, if_neg hk]
    rw [hshape]
    exact ⟨synthesisCatch_images _ _ _,
      by rw [synthesisCatch_images]; exact rollbackFailure_no_id _ _,
      fun hf => hfresh _ hf (synthesisCatch_images _ _ _),
      synthesisCatch_error _ _ _, synthesisCatch_step _ _ _⟩
  · have hshape : synthesizeAtPos st settings apiKey envPublicKey envKey posX posY size genId
        (Except.ok p) (Except.error e)
        = (synthesisCatch
            (AppState.mk (st.images ++
              [{ id := genId, base64 := "", x := posX, y := posY, width := size
               , height := targetHeight settings.aspect size, isGenerating := true }])
              st.history none LoadingStep.GENERATING true st.selectedIds) genId
            ⟨if e.message = "" then "Failed to generate image." else e.message⟩,
           [SynthEvent.placeholderInserted, SynthEvent.promptRequested,
            SynthEvent.imageRequested]) := by
      simp only [synthesizeAtPos, hkey, Bool.not_true, Bool.false_eq_true, if_false,
        if_true, List.singleton_append, hni, generateSynthesisPrompt, generateImage,
        if_neg hk]
    rw [hshape]
    exact ⟨synthesisCatch_images _ _ _,
      by rw [synthesisCatch_images]; exact rollbackFailure_no_id _ _,
      fun hf => hfresh _ hf (synthesisCatch_images _ _ _),
      synthesisCatch_error _ _ _, synthesisCatch_step _ _ _⟩

/-- The concrete scored set of `stW` against a 200-pixel square target at
the origin: the single centered contributor. -/
theorem scoredImages_stW :
    scoredImages stW.images ((0 : ℝ) + 200 / 2)
        ((0 : ℝ) + targetHeight settingsW.aspect 200 / 2) settingsW.influenceRadius
      = [⟨item200 "w", 2, 1⟩] := by
  have hx : ((0 : ℝ) + 200 / 2) = 100 := by norm_num
  have hy : ((0 : ℝ) + targetHeight settingsW.aspect 200 / 2) = 100 := by
    simp only [settingsW, targetHeight]
    norm_num
  rw [hx, hy]
  exact scoredImages_single "w"

/-- Closed instance of `synthesizeAtPos_failure_rollback`: the one-item
board, a valid key, and a failing prompt request roll back to the original
collection with an error surfaced. -/
theorem synthesizeAtPos_failure_rollback_witness :
    (synthesizeAtPos stW settingsW "k" "" "" 0 0 200 "g"
        (Except.error ⟨"boom"⟩) (Except.ok "u")).1.images
      = rollbackFailure "g" (stW.images ++
          [{ id := "g", base64 := "", x := 0, y := 0, width := 200
           , height := targetHeight settingsW.aspect 200, isGenerating := true }]) ∧
    (∀ img ∈ (synthesizeAtPos stW settingsW "k" "" "" 0 0 200 "g"
        (Except.error ⟨"boom"⟩) (Except.ok "u")).1.images, img.id ≠ "g") ∧
    ("g" ∉ stW.images.map (fun im => im.id) →
      (synthesizeAtPos stW settingsW "k" "" "" 0 0 200 "g"
        (Except.error ⟨"boom"⟩) (Except.ok "u")).1.images = stW.images) ∧
    (synthesizeAtPos stW settingsW "k" "" "" 0 0 200 "g"
        (Except.error ⟨"boom"⟩) (Except.ok "u")).1.error.isSome = true ∧
    (synthesizeAtPos stW settingsW "k" "" "" 0 0 200 "g"
        (Except.error ⟨"boom"⟩) (Except.ok "u")).1.loadingStep = LoadingStep.ERROR :=
  synthesizeAtPos_failure_rollback stW settingsW "k" "" "" 0 0 200 "g"
    (Except.error ⟨"boom"⟩) (Except.ok "u") rfl (by decide)
    (by rw [scoredImages_stW]; exact List.cons_ne_nil _ _)
    (Or.inl ⟨⟨"boom"⟩, rfl⟩)

/-- Rolling back a freshly generated id from "original items plus the
placeholder carrying that id" returns exactly the original items. -/
theorem rollbackFailure_append_fresh (genId : String) (imgs : List ReferenceImage)
    (ph : ReferenceImage) (hph : ph.id = genId)
    (hfr : genId ∉ imgs.map (fun im => im.id)) :
    rollbackFailure genId (imgs ++ [ph]) = imgs := by
  unfold rollbackFailure
  rw [List.filter_append]
  have h1 : imgs.filter (fun img => img.id != genId) = imgs := by
    rw [List.filter_eq_self]
    intro a ha
    simp only [bne_iff_ne, ne_eq]
    intro heq
    exact hfr (List.mem_map.mpr ⟨a, ha, heq⟩)
  have h2 : List.filter (fun img => img.id != genId) [ph] = [] := by
    simp [hph]
  rw [h1, h2, List.append_nil]

/-- No branch of `synthesizeAtPos` ever touches the undo history. -/
theorem synthesizeAtPos_history (st : AppState) (settings : AppSettings)
    (apiKey envPublicKey envKey : String) (posX posY size : ℝ) (genId : String)
    (externalText externalImage : Except GenError String) :
    (synthesizeAtPos st settings apiKey envPublicKey envKey posX posY size genId
        externalText externalImage).1.history = st.history := by
  unfold synthesizeAtPos
  cases hkb : st.hasKey with
  | false => simp
  | true =>
    simp only [Bool.not_true, Bool.false_eq_true, if_false]
    cases hni : (scoredImages st.images (posX + size / 2)
        (posY + targetHeight settings.aspect size / 2) settings.influenceRadius).isEmpty with
    | true => simp only [hni, if_true]
    | false =>
      simp only [hni, Bool.false_eq_true, if_false]
      rcases hgp : generateSynthesisPrompt (effectiveKeyOf apiKey envPublicKey envKey)
          externalText with ⟨res, called⟩
      cases res with
      | error e =>
        simp only [hgp]
        exact synthesisCatch_history _ _ _
      | ok p =>
        rcases hgi : generateImage (effectiveKeyOf apiKey envPublicKey envKey)
            externalImage with ⟨res2, called2⟩
        cases res2 with
        | error e2 =>
          simp only [hgp, hgi]
          exact synthesisCatch_history _ _ _
        | ok u =>
          simp only [hgp, hgi]

/-- The straight-line success run: both requests succeed, so the final
state reconciles the placeholder in the in-flight collection, keeps the
history, clears the error and ends COMPLETED, after issuing both external
requests. -/
theorem synthesizeAtPos_success_shape (st : AppState) (settings : AppSettings)
    (apiKey envPublicKey envKey : String) (posX posY size : ℝ) (genId p u : String)
    (hkey : st.hasKey = true)
    (hk : effectiveKeyOf apiKey envPublicKey envKey ≠ "")
    (hscored : scoredImages st.images (posX + size / 2)
        (posY + targetHeight settings.aspect size / 2) settings.influenceRadius ≠ []) :
    synthesizeAtPos st settings apiKey envPublicKey envKey posX posY size genId
        (Except.ok p) (Except.ok u)
      = (AppState.mk
          (reconcileSuccess genId (if p = "" then "A fusion of concepts." else p) u
            (synthesisSources (scoredImages st.images (posX + size / 2)
              (posY + targetHeight settings.aspect size / 2) settings.influenceRadius))
            (st.images ++
              [{ id := genId, base64 := "", x := posX, y := posY, width := size
               , height := targetHeight settings.aspect size, isGenerating := true }]))
          st.history none LoadingStep.COMPLETED true st.selectedIds,
         [SynthEvent.placeholderInserted, SynthEvent.promptRequested,
          SynthEvent.imageRequested]) := by
  have hni : (scoredImages st.images (posX + size / 2)
      (posY + targetHeight settings.aspect size / 2) settings.influenceRadius).isEmpty
      = false := by
    cases h : (scoredImages st.images (posX + size / 2)
        (posY + targetHeight settings.aspect size / 2) settings.influenceRadius).isEmpty
    · rfl
    · exact absurd (List.isEmpty_iff.mp h) hscored
  simp only [synthesizeAtPos, hkey, Bool.not_true, Bool.false_eq_true, if_false,
    if_true, List.singleton_append, hni, generateSynthesisPrompt, generateImage,
    if_neg hk]

/-- C6 (amended): the three user-initiated structural mutations — file
ingestion, single-item removal, and bulk delete of the selection — are each
preceded by a `saveToHistory` push of the pre-mutation collection (the
pushed snapshot is the top of the resulting history), but the synthesis
invocation pushes nothing: neither its placeholder insertion nor its
terminal reconciliation or rollback ever changes the undo history. -/
theorem structural_snapshot_discipline (st : AppState) :
    (∀ newImages,
      (processFiles st newImages).history = saveToHistory st.history st.images ∧
      (processFiles st newImages).history.getLast? = some st.images ∧
      (processFiles st newImages).images = st.images ++ newImages) ∧
    (∀ id,
      (removeImage st id).history = saveToHistory st.history st.images ∧
      (removeImage st id).history.getLast? = some st.images ∧
      (removeImage st id).images = st.images.filter (fun i => i.id != id)) ∧
    (st.selectedIds ≠ [] →
      (deleteSelected st).history = saveToHistory st.history st.images ∧
      (deleteSelected st).history.getLast? = some st.images ∧
      (deleteSelected st).images
        = st.images.filter (fun i => !st.selectedIds.contains i.id)) ∧
    (∀ settings apiKey envPublicKey envKey posX posY size genId externalText
        externalImage,
      (synthesizeAtPos st settings apiKey envPublicKey envKey posX posY size genId
        externalText externalImage).1.history = st.history) := by
  refine ⟨?_, ?_, ?_, ?_⟩
  · intro newImages
    exact ⟨rfl, by simp [processFiles, saveToHistory], rfl⟩
  · intro id
    exact ⟨rfl, by simp [removeImage, saveToHistory], rfl⟩
  · intro hsel
    have hne : st.selectedIds.isEmpty = false := by
      cases h : st.selectedIds.isEmpty
      · rfl
      · exact absurd (List.isEmpty_iff.mp h) hsel
    unfold deleteSelected
    rw [hne]
    exact ⟨by simp, by simp [saveToHistory], by simp⟩
  · intro settings apiKey envPublicKey envKey posX posY size genId t i
    exact synthesizeAtPos_history st settings apiKey envPublicKey envKey posX posY size
      genId t i

/-- Closed instance of `structural_snapshot_discipline` at the one-item
board: ingesting a new file pushes the pre-mutation collection, and a
concrete synthesis invocation leaves the (empty) history empty. -/
theorem structural_snapshot_discipline_witness :
    ((processFiles stW [item200 "n"]).history.getLast? = some stW.images ∧
      (processFiles stW [item200 "n"]).images = stW.images ++ [item200 "n"]) ∧
    (synthesizeAtPos stW settingsW "k" "" "" 0 0 200 "g"
        (Except.ok "p") (Except.ok "u")).1.history = stW.history :=
  ⟨⟨((structural_snapshot_discipline stW).1 [item200 "n"]).2.1,
    ((structural_snapshot_discipline stW).1 [item200 "n"]).2.2⟩,
   (structural_snapshot_discipline stW).2.2.2 settingsW "k" "" "" 0 0 200 "g"
     (Except.ok "p") (Except.ok "u")⟩

/-- C6 counterexample: a successful synthesis invocation on the one-item
board structurally mutates the collection (placeholder inserted, then
reconciled in place: two items afterwards) while the undo history stays
empty — the mutation was not preceded by any snapshot push. -/
theorem snapshot_before_mutation_counterexample :
    (synthesizeAtPos stW settingsW "k" "" "" 0 0 200 "g"
        (Except.ok "p") (Except.ok "u")).1.images.length = 2 ∧
    (synthesizeAtPos stW settingsW "k" "" "" 0 0 200 "g"
        (Except.ok "p") (Except.ok "u")).1.history = [] ∧
    stW.images.length = 1 ∧ stW.history = [] := by
  have hsh := synthesizeAtPos_success_shape stW settingsW "k" "" "" 0 0 200 "g" "p" "u"
    rfl (by decide) (by rw [scoredImages_stW]; exact List.cons_ne_nil _ _)
  rw [hsh]
  refine ⟨?_, rfl, rfl, rfl⟩
  simp [reconcileSuccess, stW]

/-- The run with the credential flag set but an empty effective credential:
the placeholder is inserted, then `generateSynthesisPrompt` throws
"API Key is missing." before any external request, and the catch branch
rolls the placeholder back.  The event list records the insertion and no
external request. -/
theorem synthesizeAtPos_emptyKey_shape (st : AppState) (settings : AppSettings)
    (apiKey envPublicKey envKey : String) (posX posY size : ℝ) (genId : String)
    (externalText externalImage : Except GenError String)
    (hkey : st.hasKey = true)
    (hk : effectiveKeyOf apiKey envPublicKey envKey = "")
    (hscored : scoredImages st.images (posX + size / 2)
        (posY + targetHeight settings.aspect size / 2) settings.influenceRadius ≠ []) :
    synthesizeAtPos st settings apiKey envPublicKey envKey posX posY size genId
        externalText externalImage
      = (synthesisCatch
          (AppState.mk (st.images ++
            [{ id := genId, base64 := "", x := posX, y := posY, width := size
             , height := targetHeight settings.aspect size, isGenerating := true }])
            st.history none LoadingStep.ANALYZING true st.selectedIds) genId
          ⟨"API Key is missing."⟩,
         [SynthEvent.placeholderInserted]) := by
  have hni : (scoredImages st.images (posX + size / 2)
      (posY + targetHeight settings.aspect size / 2) settings.influenceRadius).isEmpty
      = false := by
    cases h : (scoredImages st.images (posX + size / 2)
        (posY + targetHeight settings.aspect size / 2) settings.influenceRadius).isEmpty
    · rfl
    · exact absurd (List.isEmpty_iff.mp h) hscored
  simp only [synthesizeAtPos, hkey, Bool.not_true, Bool.false_eq_true, if_false,
    if_true, hni, hk, generateSynthesisPrompt, if_pos rfl]

/-- C9 (amended): with the credential flag unset, `synthesizeAtPos` fails
before doing anything — no external request, no placeholder, the
collection, history and loading step untouched, only the connect-your-key
error recorded.  With the flag set but an empty effective credential
(empty user key and empty environment keys), the service layer still fails
before any external request is issued, but a Pending placeholder *is*
transiently inserted; the catch branch removes it again, so for a fresh
generated id the final collection equals the pre-invocation one. -/
theorem synthesizeAtPos_credential_guard (st : AppState) (settings : AppSettings)
    (apiKey envPublicKey envKey : String) (posX posY size : ℝ) (genId : String)
    (externalText externalImage : Except GenError String) :
    (st.hasKey = false →
      synthesizeAtPos st settings apiKey envPublicKey envKey posX posY size genId
          externalText externalImage
        = ({ st with error := some "Please connect your API key to synthesize." }, [])) ∧
    (st.hasKey = true → effectiveKeyOf apiKey envPublicKey envKey = "" →
      scoredImages st.images (posX + size / 2)
          (posY + targetHeight settings.aspect size / 2) settings.influenceRadius ≠ [] →
      ((synthesizeAtPos st settings apiKey envPublicKey envKey posX posY size genId
          externalText externalImage).2 = [SynthEvent.placeholderInserted] ∧
        (synthesizeAtPos st settings apiKey envPublicKey envKey posX posY size genId
          externalText externalImage).1.images
          = rollbackFailure genId (st.images ++
              [{ id := genId, base64 := "", x := posX, y := posY, width := size
               , height := targetHeight settings.aspect size, isGenerating := true }]) ∧
        (genId ∉ st.images.map (fun im => im.id) →
          (synthesizeAtPos st settings apiKey envPublicKey envKey posX posY size genId
            externalText externalImage).1.images = st.images))) := by
  constructor
  · intro hkey
    simp only [synthesizeAtPos, hkey, Bool.not_false, if_true]
  · intro hkey hk hscored
    have hsh := synthesizeAtPos_emptyKey_shape st settings apiKey envPublicKey envKey
      posX posY size genId externalText externalImage hkey hk hscored
    rw [hsh]
    refine ⟨rfl, synthesisCatch_images _ _ _, ?_⟩
    intro hfr
    rw [synthesisCatch_images]
    exact rollbackFailure_append_fresh genId st.images _ rfl hfr

/-- Closed instance of `synthesizeAtPos_credential_guard`: the unset flag
blocks the invocation outright, and the set-flag/empty-credential run
inserts exactly one placeholder event and ends with the original
collection. -/
theorem synthesizeAtPos_credential_guard_witness :
    (synthesizeAtPos stNoKey settingsW "" "" "" 0 0 200 "g"
        (Except.ok "p") (Except.ok "u")
      = ({ stNoKey with error := some "Please connect your API key to synthesize." }, [])) ∧
    ((synthesizeAtPos stW settingsW "" "" "" 0 0 200 "g"
        (Except.ok "p") (Except.ok "u")).2 = [SynthEvent.placeholderInserted] ∧
     (synthesizeAtPos stW settingsW "" "" "" 0 0 200 "g"
        (Except.ok "p") (Except.ok "u")).1.images = stW.images) :=
  ⟨(synthesizeAtPos_credential_guard stNoKey settingsW "" "" "" 0 0 200 "g"
      (Except.ok "p") (Except.ok "u")).1 rfl,
   let h := (synthesizeAtPos_credential_guard stW settingsW "" "" "" 0 0 200 "g"
      (Except.ok "p") (Except.ok "u")).2 rfl rfl
      (by rw [scoredImages_stW]; exact List.cons_ne_nil _ _)
   ⟨h.1, h.2.2 (by decide)⟩⟩

/-- C9 counterexample: an invocation with a missing credential (flag set,
user key and both environment keys empty) on the one-item board still
inserts the Pending placeholder — the recorded event list is
`[placeholderInserted]` — even though the service layer fails before any
external request; the claim that no placeholder is ever inserted for a
missing credential is false (the placeholder is only rolled back
afterwards). -/
theorem credential_missing_placeholder_counterexample :
    effectiveKeyOf "" "" "" = "" ∧
    (synthesizeAtPos stW settingsW "" "" "" 0 0 200 "g"
        (Except.ok "p") (Except.ok "u")).2 = [SynthEvent.placeholderInserted] ∧
    (synthesizeAtPos stW settingsW "" "" "" 0 0 200 "g"
        (Except.ok "p") (Except.ok "u")).1.loadingStep = LoadingStep.ERROR := by
  have hsh := synthesizeAtPos_emptyKey_shape stW settingsW "" "" "" 0 0 200 "g"
    (Except.ok "p") (Except.ok "u") rfl rfl
    (by rw [scoredImages_stW]; exact List.cons_ne_nil _ _)
  rw [hsh]
  exact ⟨rfl, rfl, synthesisCatch_step _ _ _⟩

/-- Undoing right after an insert restores the full pre-insert state, as
long as the pre-insert history held at most 19 snapshots (so the push did
not evict). -/
theorem undoRestore_addImage (st : AppState) (a : ReferenceImage)
    (h : st.history.length ≤ 19) : undoRestore (addImage st a) = st := by
  unfold addImage processFiles undoRestore saveToHistory
  have h0 : st.history.length - 19 = 0 := Nat.sub_eq_zero_of_le h
  simp only [h0, List.drop_zero, List.getLast?_concat, List.dropLast_concat]

/-- The collection after a sequence of inserts is the original collection
followed by the inserted items. -/
theorem insertAll_images (l : List ReferenceImage) (st : AppState) :
    (insertAll l st).images = st.images ++ l := by
  induction l generalizing st with
  | nil => simp [insertAll]
  | cons a t ih =>
    show (insertAll t (addImage st a)).images = _
    rw [ih]
    simp [addImage, processFiles]

/-- Below the 20-snapshot capacity, each insert grows the history by one. -/
theorem insertAll_history_length (l : List ReferenceImage) (st : AppState)
    (h : st.history.length + l.length ≤ 20) :
    (insertAll l st).history.length = st.history.length + l.length := by
  induction l generalizing st with
  | nil => simp [insertAll]
  | cons a t ih =>
    have hlen : (addImage st a).history.length = st.history.length + 1 := by
      have h0 : st.history.length - 19 = 0 := by
        simp only [List.length_cons] at h
        omega
      simp [addImage, processFiles, saveToHistory, h0]
    have hpre : (addImage st a).history.length + t.length ≤ 20 := by
      rw [hlen]
      simp only [List.length_cons] at h
      omega
    show (insertAll t (addImage st a)).history.length = _
    rw [ih (addImage st a) hpre, hlen]
    simp only [List.length_cons]
    omega

/-- Splitting the last insert off a sequence of inserts. -/
theorem insertAll_append_one (l : List ReferenceImage) (a : ReferenceImage)
    (st : AppState) : insertAll (l ++ [a]) st = addImage (insertAll l st) a := by
  unfold insertAll
  rw [List.foldl_append]
  rfl

/-- C8 (amended): the undo history is a LIFO stack bounded at 20
snapshots.  Restoring right after an insert always returns the pre-insert
collection; a restore on an empty history changes nothing; and starting
from an empty history, after `n ≤ 20` structural inserts, `k ≤ n`
successive restores step the full state back to the state after the first
`n - k` inserts — in particular `n` restores return exactly to the initial
state.  (Beyond 20 inserts the oldest snapshots are evicted, so the
unbounded form of the claim fails; see the counterexample.) -/
theorem undo_lifo_stack (st : AppState) :
    (∀ (stA : AppState) (item : ReferenceImage),
      (undoRestore (addImage stA item)).images = stA.images) ∧
    (st.history = [] → undoRestore st = st) ∧
    (st.history = [] → ∀ (items : List ReferenceImage), items.length ≤ 20 →
      ∀ k, k ≤ items.length →
        restoreK k (insertAll items st)
          = insertAll (items.take (items.length - k)) st) := by
  refine ⟨?_, ?_, ?_⟩
  · intro stA item
    simp [addImage, processFiles, saveToHistory, undoRestore, List.getLast?_concat]
  · intro hh
    unfold undoRestore
    rw [hh]
    rfl
  · intro hh items hlen k
    induction k with
    | zero =>
      intro _
      rw [Nat.sub_zero, List.take_length]
      rfl
    | succ k ih =>
      intro hk
      have hk' : k ≤ items.length := Nat.le_of_succ_le hk
      show undoRestore (restoreK k (insertAll items st)) = _
      rw [ih hk']
      have hm : items.length - k = (items.length - (k + 1)) + 1 := by omega
      set m := items.length - (k + 1) with hmdef
      have hmlt : m < items.length := by omega
      have htake : items.take (m + 1) = items.take m ++ [items.get ⟨m, hmlt⟩] := by
        rw [List.take_succ, List.getElem?_eq_getElem hmlt]
        rfl
      rw [hm, htake, insertAll_append_one]
      apply undoRestore_addImage
      have hlentake : (items.take m).length = m := by
        rw [List.length_take]
        omega
      have hlen2 := insertAll_history_length (items.take m) st
        (by rw [hh, hlentake]; simp only [List.length_nil]; omega)
      rw [hlen2, hh, hlentake]
      simp only [List.length_nil]
      omega

/-- Closed instance of `undo_lifo_stack`: one insert-then-restore returns
the empty collection, and three inserts followed by three restores return
the initial state exactly. -/
theorem undo_lifo_stack_witness :
    (undoRestore (addImage stE (item200 "a"))).images = stE.images ∧
    restoreK 3 (insertAll [item200 "a", item200 "b", item200 "c"] stE) = stE :=
  ⟨(undo_lifo_stack stE).1 stE (item200 "a"),
   (undo_lifo_stack stE).2.2 rfl [item200 "a", item200 "b", item200 "c"]
     (by decide) 3 (by decide)⟩

/-- C8 counterexample: starting from an empty board, 21 structural inserts
followed by 21 restores do NOT return the collection to its initial empty
state — the capacity-20 history evicted the oldest snapshot, so one item
survives every possible restore. -/
theorem undo_lifo_counterexample :
    stE.images.length = 0 ∧
    items21.length = 21 ∧
    (restoreK 21 (insertAll items21 stE)).images.length = 1 :=
  ⟨rfl, rfl, rfl⟩
end ResonaCanvas
